import Mathlib

/-!
Shallow embedding of the backport tool: the GitHub client in
`assets/backport/github/github.go` and the command in `main.go`.

The remote host (go-github / the GitHub API) is an external collaborator.
It is modelled as an oracle `Gateway`: a record of pure functions, one per
API operation the code calls, each returning `Except Err _`.  Every
embedded function additionally returns the ordered list of gateway calls
it issued (a `List GEffect`), so that ordering, write-effects and
rollback behaviour can be stated about the trace.

Pointer-typed Go fields become `Option`; the generated go-github
accessors (`GetSHA`, `GetState`, ...) that dereference scalar pointers
with a zero-value default become `Option.getD`.  `trace.Wrap` attaches a
caller stack and preserves the error identity (`trace.Unwrap` returns the
original), so it is modelled as the identity on errors.
-/

namespace BackportTool

/-- Go `error` values produced by this code: `trace.BadParameter`,
`trace.Errorf`, and arbitrary errors coming back from the gateway
(transport, authorization, reference-already-exists, ...). -/
inductive Err where
  | badParameter (msg : String)
  | errorf (msg : String)
  | external (msg : String)
deriving DecidableEq

/-- The Go helper `trace.Wrap` keeps the error's identity and only adds a stack trace,
which the embedding does not track. -/
def wrap (e : Err) : Err := e

/-- Model of `go_github.Tree`: opaque to this code except as a value passed
between commits; identity is its content hash. -/
structure Tree where
  sha : String
deriving DecidableEq

/-- Model of `go_github.Commit`: SHA, message and tree are pointer fields
(`Option`), parents an ordered list of commit objects. -/
inductive Commit where
  | mk (sha message : Option String) (tree : Option Tree) (parents : List Commit)

def Commit.sha : Commit → Option String
  | .mk s _ _ _ => s

def Commit.message : Commit → Option String
  | .mk _ m _ _ => m

def Commit.tree : Commit → Option Tree
  | .mk _ _ t _ => t

def Commit.parents : Commit → List Commit
  | .mk _ _ _ p => p

/-- Generated accessor `GetSHA`: empty string when the field is nil. -/
def Commit.GetSHA (c : Commit) : String := c.sha.getD ""

/-- Generated accessor `GetTree`: for a pointer-typed field the accessor
returns the pointer itself (possibly nil). -/
def Commit.GetTree (c : Commit) : Option Tree := c.tree

/-- Model of `go_github.RepositoryCommit` (the code only ever reads its SHA). -/
structure RepoCommit where
  sha : Option String
deriving DecidableEq

def RepoCommit.GetSHA (c : RepoCommit) : String := c.sha.getD ""

/-- Model of `go_github.Branch` (the code only ever reads its tip commit). -/
structure Branch where
  commit : Option RepoCommit
deriving DecidableEq

/-- Accessor chain `branch.GetCommit().GetSHA()`: nil-safe accessor chain. -/
def getSHAOfOpt : Option RepoCommit → String
  | none => ""
  | some c => c.GetSHA

/-- Model of `go_github.Reference` together with its `GitObject` target SHA. -/
structure Reference where
  ref : String
  sha : String
deriving DecidableEq

/-- Model of `go_github.PullRequestBranch` (only the ref name is read). -/
structure PullRequestBranch where
  ref : Option String
deriving DecidableEq

def PullRequestBranch.GetRef (b : PullRequestBranch) : String := b.ref.getD ""

/-- Model of `go_github.PullRequest` (number, state, base and head refs). -/
structure PullRequest where
  number : Option Int
  state : Option String
  base : Option PullRequestBranch
  head : Option PullRequestBranch
deriving DecidableEq

def PullRequest.GetNumber (p : PullRequest) : Int := p.number.getD 0

def PullRequest.GetState (p : PullRequest) : String := p.state.getD ""

/-- Accessor chain `pull.GetBase().GetRef()`: nil-safe accessor chain. -/
def PullRequest.baseRef (p : PullRequest) : String :=
  match p.base with
  | none => ""
  | some b => b.GetRef

/-- Accessor chain `pull.GetHead().GetRef()`: nil-safe accessor chain. -/
def PullRequest.headRef (p : PullRequest) : String :=
  match p.head with
  | none => ""
  | some b => b.GetRef

/-- Model of `go_github.NewPullRequest` as built by `CreatePullRequest`. -/
structure NewPullRequest where
  title : Option String
  head : Option String
  base : Option String
  body : Option String
  maintainerCanModify : Option Bool
deriving DecidableEq

/-- Model of `go_github.ListOptions`. -/
structure ListOptions where
  page : Nat
  perPage : Nat
deriving DecidableEq

/-- The part of `go_github.Response` the code reads. -/
structure Response where
  nextPage : Nat
deriving DecidableEq

/-- One gateway call, with the arguments the code passed. -/
inductive GEffect where
  | getBranch (name : String)
  | getCommit (sha : String)
  | createCommit (c : Commit)
  | createRef (r : Reference)
  | updateRef (r : Reference) (force : Bool)
  | deleteRef (ref : String)
  | repoMerge (base head : String)
  | listCommits (number : Int) (opts : ListOptions)
  | getPull (number : Int)
  | createPull (pr : NewPullRequest)

/-- The remote repository gateway as an oracle: one pure function per
go-github operation the client invokes. -/
structure Gateway where
  getBranch : String → Except Err Branch
  getCommit : String → Except Err Commit
  createCommit : Commit → Except Err Commit
  createRef : Reference → Except Err Unit
  updateRef : Reference → Bool → Except Err Unit
  deleteRef : String → Except Err Unit
  repoMerge : String → String → Except Err RepoCommit
  listCommits : Int → ListOptions → Except Err (List RepoCommit × Response)
  getPull : Int → Except Err PullRequest
  createPull : NewPullRequest → Except Err Unit

/-- Constant `backportPRState`: the state a pull request should be in to backport. -/
def backportPRState : String := "closed"

/-- Constant `masterBranchName`. -/
def masterBranchName : String := "master"

/-- Constant `perPage`: the number of items per page to request. -/
def perPage : Nat := 100

/-- Constant `branchRefPrefix` in the source: the prefix for a reference pointing
to a branch. -/
def branchRefPfx : String := "refs/heads/"

/-- Go function `strings.TrimPrefix`: `s` without the leading `p` when present,
otherwise `s` unchanged (phrased on the character lists so that it
evaluates inside the kernel). -/
def trimPfx (s p : String) : String :=
  if p.data.isPrefixOf s.data then String.mk (s.data.drop p.data.length) else s

/-- The `Config` for the client. -/
structure Config where
  token : String
  organization : String
  repository : String
deriving DecidableEq

/-- The `Client`: carries the config by value.  The embedded go-github HTTP
client (built from the token, an operation that cannot fail) is out of
scope; the gateway oracle stands for it. -/
structure Client where
  config : Config
deriving DecidableEq

/-- Method `(c *Config) Check`: validates config. -/
def Config.check (c : Config) : Except Err Unit :=
  if c.token = "" then .error (.badParameter "missing token")
  else if c.organization = "" then .error (.badParameter "missing organization")
  else if c.repository = "" then .error (.badParameter "missing repository")
  else .ok ()

/-- Function `New`: returns a new GitHub client after validating the config. -/
def New (c : Config) : Except Err Client :=
  match c.check with
  | .error e => .error (wrap e)
  | .ok _ => .ok { config := c }

/-- Function `generateTitleAndBody` from `main.go`: the string used to fill in both
the title and body of a generated pull request
(`fmt.Sprintf("Backport #%s to %s", strconv.Itoa(pullNumber), targetBranch)`). -/
def generateTitleAndBody (pullNumber : Int) (targetBranch : String) : String :=
  "Backport #" ++ toString pullNumber ++ " to " ++ targetBranch

/-- Method `CreatePullRequest`: builds a `NewPullRequest` with the same string as
title and body and submits it. -/
def CreatePullRequest (gw : Gateway) (baseBranch headBranch titleAndBody : String) :
    Except Err Unit × List GEffect :=
  let newPR : NewPullRequest :=
    { title := some titleAndBody
      head := some headBranch
      base := some baseBranch
      body := some titleAndBody
      maintainerCanModify := some true }
  match gw.createPull newPR with
  | .error e => (.error e, [.createPull newPR])
  | .ok _ => (.ok (), [.createPull newPR])

/-- Method `createSiblingCommit`: creates a commit with the branch head's tree
and the cherry parent as sole parent, then force-updates the branch to
point at that commit. -/
def createSiblingCommit (gw : Gateway) (branchName : String)
    (branchHeadCommit cherryParent : Commit) : Except Err Unit × List GEffect :=
  let tree := branchHeadCommit.GetTree
  let req : Commit := .mk none (some "field-not-required") tree [cherryParent]
  match gw.createCommit req with
  | .error e => (.error (wrap e), [.createCommit req])
  | .ok commit =>
    let sha := commit.GetSHA
    let r : Reference := ⟨branchRefPfx ++ branchName, sha⟩
    match gw.updateRef r true with
    | .error e => (.error (wrap e), [.createCommit req, .updateRef r true])
    | .ok _ => (.ok (), [.createCommit req, .updateRef r true])

/-- Method `merge`: merges `headCommitSHA` into branch `base` via the repository
merge operation, then fetches the resulting merge commit object. -/
def merge (gw : Gateway) (base headCommitSHA : String) :
    Except Err Commit × List GEffect :=
  match gw.repoMerge base headCommitSHA with
  | .error e => (.error (wrap e), [.repoMerge base headCommitSHA])
  | .ok m =>
    match gw.getCommit m.GetSHA with
    | .error e =>
      (.error (wrap e), [.repoMerge base headCommitSHA, .getCommit m.GetSHA])
    | .ok mergeCommit =>
      (.ok mergeCommit, [.repoMerge base headCommitSHA, .getCommit m.GetSHA])

/-- Method `cherryPickCommit`: cherry picks a single commit on a branch via the
sibling-commit protocol; returns the merge-derived tree and the final
commit's SHA. -/
def cherryPickCommit (gw : Gateway) (branchName : String)
    (cherryCommit headBranchCommit : Commit) :
    Except Err (Option Tree × String) × List GEffect :=
  match cherryCommit.parents with
  | [cherryParent] =>
    match createSiblingCommit gw branchName headBranchCommit cherryParent with
    | (.error e, sibTr) => (.error (wrap e), sibTr)
    | (.ok _, sibTr) =>
      match merge gw branchName cherryCommit.GetSHA with
      | (.error e, mTr) => (.error (wrap e), sibTr ++ mTr)
      | (.ok mergeCommit, mTr) =>
        let mergeTree := mergeCommit.GetTree
        match gw.getCommit headBranchCommit.GetSHA with
        | .error e =>
          (.error (wrap e), sibTr ++ mTr ++ [.getCommit headBranchCommit.GetSHA])
        | .ok updatedCommit =>
          let req : Commit := .mk none cherryCommit.message mergeTree [updatedCommit]
          match gw.createCommit req with
          | .error e =>
            (.error (wrap e),
             sibTr ++ mTr ++ [.getCommit headBranchCommit.GetSHA, .createCommit req])
          | .ok commit =>
            let sha := commit.GetSHA
            let r : Reference := ⟨branchRefPfx ++ branchName, sha⟩
            match gw.updateRef r true with
            | .error e =>
              (.error (wrap e),
               sibTr ++ mTr ++
                 [.getCommit headBranchCommit.GetSHA, .createCommit req,
                  .updateRef r true])
            | .ok _ =>
              (.ok (mergeTree, sha),
               sibTr ++ mTr ++
                 [.getCommit headBranchCommit.GetSHA, .createCommit req,
                  .updateRef r true])
  | _ => (.error (.badParameter "merge commits are not supported"), [])

/-- The per-commit loop of `cherryPickCommitsOnBranch`: fetch the commit
object, run `cherryPickCommit`, thread the updated tip (SHA and tree)
into the next iteration; on a step failure the deferred
`Git.DeleteRef` call runs (its result is discarded) and the step's
error is returned. -/
def cherryPickLoop (gw : Gateway) (branchName : String) :
    List String → Commit → Except Err Unit × List GEffect
  | [], _ => (.ok (), [])
  | sha :: rest, headCommit =>
    match gw.getCommit sha with
    | .error e => (.error (wrap e), [.getCommit sha])
    | .ok cherryCommit =>
      match cherryPickCommit gw branchName cherryCommit headCommit with
      | (.error e, tr) =>
        (.error (wrap e),
         .getCommit sha :: (tr ++ [.deleteRef (branchRefPfx ++ branchName)]))
      | (.ok (tree, newSHA), tr) =>
        let headCommit2 : Commit :=
          .mk (some newSHA) headCommit.message tree headCommit.parents
        match cherryPickLoop gw branchName rest headCommit2 with
        | (res, tr2) => (res, .getCommit sha :: (tr ++ tr2))

/-- Method `cherryPickCommitsOnBranch`: fetches the branch and its HEAD commit,
then cherry picks the listed commits in order. -/
def cherryPickCommitsOnBranch (gw : Gateway) (branchName : String)
    (commits : List String) : Except Err Unit × List GEffect :=
  match gw.getBranch branchName with
  | .error e => (.error (wrap e), [.getBranch branchName])
  | .ok branch =>
    match gw.getCommit (getSHAOfOpt branch.commit) with
    | .error e =>
      (.error (wrap e),
       [.getBranch branchName, .getCommit (getSHAOfOpt branch.commit)])
    | .ok headCommit =>
      match cherryPickLoop gw branchName commits headCommit with
      | (res, tr) =>
        (res,
         .getBranch branchName :: .getCommit (getSHAOfOpt branch.commit) :: tr)

/-- Method `createBranchFrom`: creates `newBranchName` from `branchFromName`'s
HEAD. -/
def createBranchFrom (gw : Gateway) (branchFromName newBranchName : String) :
    Except Err Unit × List GEffect :=
  match gw.getBranch branchFromName with
  | .error e => (.error (wrap e), [.getBranch branchFromName])
  | .ok baseBranch =>
    let newRefBranchName := branchRefPfx ++ newBranchName
    let baseBranchSHA := getSHAOfOpt baseBranch.commit
    let ref : Reference := ⟨newRefBranchName, baseBranchSHA⟩
    match gw.createRef ref with
    | .error e => (.error (wrap e), [.getBranch branchFromName, .createRef ref])
    | .ok _ => (.ok (), [.getBranch branchFromName, .createRef ref])

/-- The branch name `Backport` computes:
`fmt.Sprintf("auto-backport/%s/%s", baseBranchName, backportBranchName)`. -/
def newBranchNameOf (baseBranchName backportBranchName : String) : String :=
  "auto-backport/" ++ baseBranchName ++ "/" ++ backportBranchName

/-- Method `Backport`: creates the new branch off the base branch and cherry
picks the commits onto it, returning the new branch's name. -/
def Backport (gw : Gateway) (baseBranchName backportBranchName : String)
    (commits : List String) : Except Err String × List GEffect :=
  let newBranchName := newBranchNameOf baseBranchName backportBranchName
  match createBranchFrom gw baseBranchName newBranchName with
  | (.error e, tr) => (.error (wrap e), tr)
  | (.ok _, tr) =>
    match cherryPickCommitsOnBranch gw newBranchName commits with
    | (.error e, tr2) => (.error (wrap e), tr ++ tr2)
    | (.ok _, tr2) => (.ok newBranchName, tr ++ tr2)

/-- The zero-valued `&go_github.ListOptions{}` the source passes to
`ListCommits` on every iteration. -/
def emptyListOptions : ListOptions := ⟨0, 0⟩

/-- The page-fetch loop of `getPullRequestCommits`, with explicit fuel
(`none` means the loop has not returned within `fuel` iterations).
Embedded faithfully from the source: the request sent to `ListCommits`
is a fresh zero-valued `&go_github.ListOptions{}` on every iteration,
while the local `opts` value (initially page 0, `perPage` 100) has its
`Page` field updated from `resp.NextPage` but is never passed to any
call. -/
def getPullRequestCommitsLoop (gw : Gateway) (number : Int) :
    ListOptions → List String → Nat →
    Option (Except Err (List String) × List GEffect)
  | _, _, 0 => none
  | opts, commitSHAs, fuel + 1 =>
    match gw.listCommits number emptyListOptions with
    | .error e => some (.error (wrap e), [.listCommits number emptyListOptions])
    | .ok (currCommits, resp) =>
      let acc := commitSHAs ++ currCommits.map RepoCommit.GetSHA
      if resp.nextPage = 0 then
        some (.ok acc, [.listCommits number emptyListOptions])
      else
        match getPullRequestCommitsLoop gw number
            { opts with page := resp.nextPage } acc fuel with
        | none => none
        | some (r, tr) => some (r, .listCommits number emptyListOptions :: tr)

/-- Method `getPullRequestCommits`: accumulates the SHAs of the pull request's
commits page by page (see `getPullRequestCommitsLoop` for the loop). -/
def getPullRequestCommits (gw : Gateway) (number : Int) (fuel : Nat) :
    Option (Except Err (List String) × List GEffect) :=
  getPullRequestCommitsLoop gw number ⟨0, perPage⟩ [] fuel

/-- Method `GetPullRequestMetadata`: fetches the pull request, requires it to be
closed with base `master` (after stripping `refs/heads/`), then lists its
commits; returns the commit SHAs and the stripped head ref. -/
def GetPullRequestMetadata (gw : Gateway) (number : Int) (fuel : Nat) :
    Option (Except Err (List String × String) × List GEffect) :=
  match gw.getPull number with
  | .error e => some (.error (wrap e), [.getPull number])
  | .ok pull =>
    if pull.GetState ≠ backportPRState then
      some (.error (.errorf ("pull request " ++ toString number ++ " is not closed")),
            [.getPull number])
    else if trimPfx pull.baseRef branchRefPfx ≠ masterBranchName then
      some (.error (.errorf ("pull request " ++ toString number ++ "\x27s base is not master")),
            [.getPull number])
    else
      match getPullRequestCommits gw pull.GetNumber fuel with
      | none => none
      | some (.error e, tr) => some (.error (wrap e), .getPull number :: tr)
      | some (.ok commits, tr) =>
        some (.ok (commits, trimPfx pull.headRef branchRefPfx),
              .getPull number :: tr)

/-- Is this gateway call a write (mutation) on the host, as opposed to a
read? -/
def isWriteEffect : GEffect → Bool
  | .getBranch _ => false
  | .getCommit _ => false
  | .listCommits _ _ => false
  | .getPull _ => false
  | .createCommit _ => true
  | .createRef _ => true
  | .updateRef _ _ => true
  | .deleteRef _ => true
  | .repoMerge _ _ => true
  | .createPull _ => true

/-- Modelled from the spec: §4.3's gateway reference semantics, which the
source consumes but does not implement — `create-ref` and `update-ref`
leave the named reference existing, `delete-ref` removes it,
`merge(base, head)` advances the base branch's reference, and reads
change nothing.  Folding these semantics over a call trace (assuming the
recorded calls succeeded) decides whether a reference exists after the
trace. -/
def refStep (r : String) (b : Bool) : GEffect → Bool
  | .createRef x => if x.ref = r then true else b
  | .updateRef x _ => if x.ref = r then true else b
  | .repoMerge base _ => if branchRefPfx ++ base = r then true else b
  | .deleteRef x => if x = r then false else b
  | _ => b

/-- Whether reference `r` exists after the calls in `tr`, starting from
existence state `b` (see `refStep`). -/
def refExistsAfter (b : Bool) (tr : List GEffect) (r : String) : Bool :=
  tr.foldl (refStep r) b

/-! ### Concrete fixtures used to instantiate the theorems -/

/-- A gateway on which every operation fails: the base for the concrete
fixtures below, which override only the operations they exercise. -/
def gwErr : Gateway where
  getBranch := fun _ => .error (.external "unavailable")
  getCommit := fun _ => .error (.external "unavailable")
  createCommit := fun _ => .error (.external "unavailable")
  createRef := fun _ => .error (.external "unavailable")
  updateRef := fun _ _ => .error (.external "unavailable")
  deleteRef := fun _ => .error (.external "unavailable")
  repoMerge := fun _ _ => .error (.external "unavailable")
  listCommits := fun _ _ => .error (.external "unavailable")
  getPull := fun _ => .error (.external "unavailable")
  createPull := fun _ => .error (.external "unavailable")

/-- Parent of the commit cherry-picked in the C1 fixture. -/
def parC1 : Commit := .mk (some "par") none none []

/-- The single-parent commit cherry-picked in the C1 fixture. -/
def cherryC1 : Commit := .mk (some "ch") (some "orig message") (some ⟨"cht"⟩) [parC1]

/-- The branch tip in the C1 fixture. -/
def tipC1 : Commit := .mk (some "tip") none (some ⟨"tt"⟩) []

/-- The sibling commit the C1 fixture's gateway hands back. -/
def sibC1 : Commit := .mk (some "sib") none none []

/-- The final cherry-pick commit the C1 fixture's gateway hands back. -/
def finC1 : Commit := .mk (some "fin") none none []

/-- The merge commit object the C1 fixture's gateway hands back. -/
def mergeC1 : Commit := .mk (some "m") none (some ⟨"mt"⟩) []

/-- The re-fetched branch tip object in the C1 fixture. -/
def tipReC1 : Commit := .mk (some "tip") (some "tip message") (some ⟨"tt"⟩) []

/-- Gateway for the C1 fixture: every call of the sibling-commit protocol
succeeds. -/
def gwC1 : Gateway :=
  { gwErr with
    createCommit := fun c =>
      if c.message = some "field-not-required" then .ok sibC1 else .ok finC1
    updateRef := fun _ _ => .ok ()
    repoMerge := fun _ _ => .ok ⟨some "m"⟩
    getCommit := fun sha =>
      if sha = "m" then .ok mergeC1
      else if sha = "tip" then .ok tipReC1
      else .error (.external "not found") }

/-- The branch tip commit in the C2 fixture. -/
def tipC2 : Commit := .mk (some "base-sha") none (some ⟨"bt"⟩) []

/-- The two-parent commit that makes step 1 fail in the C2 fixture. -/
def mergeCommitC2 : Commit :=
  .mk (some "c1") (some "m1") none [.mk (some "pa") none none [], .mk (some "pb") none none []]

/-- Gateway for the C2 fixture: branch creation and all reads succeed,
the first cherry-pick step fails on a two-parent commit, and branch
deletion itself fails (to exhibit that a deletion failure is never
surfaced over the step's error). -/
def gwC2 : Gateway :=
  { gwErr with
    getBranch := fun _ => .ok ⟨some ⟨some "base-sha"⟩⟩
    createRef := fun _ => .ok ()
    getCommit := fun sha =>
      if sha = "c1" then .ok mergeCommitC2
      else if sha = "base-sha" then .ok tipC2
      else .error (.external "not found")
    deleteRef := fun _ => .error (.external "delete failed") }

/-- Gateway for the C3 fixture: a pull request whose commits span two
pages — the zero-valued options request (page 0) answers with the first
page and next-page indicator 2, and a request for page 2 would answer
with the final page. -/
def gwC3 : Gateway :=
  { gwErr with
    listCommits := fun _ o =>
      if o.page = 2 then .ok ([⟨some "c"⟩], ⟨0⟩)
      else .ok ([⟨some "a"⟩, ⟨some "b"⟩], ⟨2⟩) }

/-- Gateway for the C4 fixture: like the C2 fixture but with a successful
branch deletion. -/
def gwC4 : Gateway :=
  { gwErr with
    getBranch := fun _ => .ok ⟨some ⟨some "base-sha"⟩⟩
    createRef := fun _ => .ok ()
    getCommit := fun sha =>
      if sha = "c1" then .ok mergeCommitC2
      else if sha = "base-sha" then .ok tipC2
      else .error (.external "not found")
    deleteRef := fun _ => .ok () }

/-- Gateway for the C5 fixture: the base branch exists but creating the
new branch reference fails with the host's already-exists error. -/
def gwC5 : Gateway :=
  { gwErr with
    getBranch := fun _ => .ok ⟨some ⟨some "sha0"⟩⟩
    createRef := fun _ => .error (.external "Reference already exists") }

/-- The closed, master-based pull request of the C6 fixture. -/
def pullC6 : PullRequest :=
  ⟨some 5, some "closed", some ⟨some "refs/heads/master"⟩, some ⟨some "refs/heads/feature-x"⟩⟩

/-- Gateway for the C6 fixture: fetching pull request 5 succeeds and its
commit listing fits on one page. -/
def gwC6 : Gateway :=
  { gwErr with
    getPull := fun n => if n = 5 then .ok pullC6 else .error (.external "not found")
    listCommits := fun _ _ => .ok ([⟨some "s1"⟩, ⟨some "s2"⟩], ⟨0⟩) }

/-- Gateway for the C8 fixture: every list-commits request succeeds and
every response reports a further page. -/
def gwC8 : Gateway :=
  { gwErr with listCommits := fun _ _ => .ok ([⟨some "a"⟩], ⟨2⟩) }

/-- Gateway for the C9 fixture: branch reads and branch creation succeed. -/
def gwC9 : Gateway :=
  { gwErr with
    getBranch := fun _ => .ok ⟨some ⟨some "base-sha"⟩⟩
    createRef := fun _ => .ok ()
    getCommit := fun sha =>
      if sha = "base-sha" then .ok tipC2 else .error (.external "not found") }

/-! ### Helper lemmas -/

/-- Lemma: `CreatePullRequest` always submits exactly one `NewPullRequest`, with
the given string as both title and body, whatever the gateway answers. -/
theorem createPullRequest_trace (gw : Gateway) (base head s : String) :
    (CreatePullRequest gw base head s).2 =
      [.createPull ⟨some s, some head, some base, some s, some true⟩] := by
  unfold CreatePullRequest
  cases h : gw.createPull ⟨some s, some head, some base, some s, some true⟩ <;> simp [h]

/-- If the gateway's answer to the zero-valued options request — the
only request `getPullRequestCommits` ever sends — reports a non-zero
next page, the page-fetch loop never returns, for any amount of fuel,
any options value and any accumulator. -/
theorem getPullRequestCommitsLoop_none (gw : Gateway) (number : Int)
    (cs : List RepoCommit) (r : Response)
    (hok : gw.listCommits number emptyListOptions = .ok (cs, r))
    (hnp : r.nextPage ≠ 0) :
    ∀ (fuel : Nat) (opts : ListOptions) (acc : List String),
      getPullRequestCommitsLoop gw number opts acc fuel = none := by
  intro fuel
  induction fuel with
  | zero => intro opts acc; rfl
  | succ n ih =>
    intro opts acc
    simp [getPullRequestCommitsLoop, hok, hnp, ih]

/-! ### Claim theorems -/

/-- Claim C7: for every pull request number `N` and target branch `T`,
the generated title-and-body string is exactly `Backport #<N> to <T>`
with `N` in decimal, and `CreatePullRequest` submits that same string as
both the title and the body of the pull request it creates. -/
theorem generateTitleAndBody_template (N : Int) (T headBranch : String) (gw : Gateway) :
    generateTitleAndBody N T = "Backport #" ++ toString N ++ " to " ++ T ∧
    (CreatePullRequest gw T headBranch (generateTitleAndBody N T)).2 =
      [.createPull
        ⟨some ("Backport #" ++ toString N ++ " to " ++ T),
         some headBranch,
         some T,
         some ("Backport #" ++ toString N ++ " to " ++ T),
         some true⟩] :=
  ⟨rfl, createPullRequest_trace gw T headBranch (generateTitleAndBody N T)⟩

/-- Claim C10: `New` returns an error exactly when the token, the
organization or the repository of the config is empty; otherwise it
returns a client carrying an unmodified copy of the config. -/
theorem new_client_validation (c : Config) :
    ((∃ e, New c = .error e) ↔
       (c.token = "" ∨ c.organization = "" ∨ c.repository = "")) ∧
    (∀ cl, New c = .ok cl → cl.config = c) := by
  by_cases h1 : c.token = "" <;> by_cases h2 : c.organization = "" <;>
    by_cases h3 : c.repository = "" <;>
      simp [New, Config.check, wrap, h1, h2, h3]

/-- Witness for C10: a fully-populated config yields a client holding
that config, and a config with an empty token yields an error. -/
theorem new_client_validation_witness :
    (Client.mk ⟨"tok", "org", "repo"⟩).config = ⟨"tok", "org", "repo"⟩ ∧
    (∃ e, New ⟨"", "org", "repo"⟩ = .error e) :=
  ⟨(new_client_validation ⟨"tok", "org", "repo"⟩).2 (Client.mk ⟨"tok", "org", "repo"⟩) rfl,
   (new_client_validation ⟨"", "org", "repo"⟩).1.mpr (Or.inl rfl)⟩

/-- Claim C8 (refuted — supporting theorem for the code bug): on a
gateway where every individual list-commits request succeeds but the
first page's response reports a further page, the page-fetch loop of
`getPullRequestCommits` never observes a zero next-page indicator and
never returns, however much fuel it is given — the source updates
`opts.Page` from `resp.NextPage` but passes a fresh zero-valued
`ListOptions{}` to every request, so it re-requests the same page
forever. -/
theorem getPullRequestCommits_nonterminating :
    (∀ opts : ListOptions, gwC8.listCommits 42 opts = .ok ([⟨some "a"⟩], ⟨2⟩)) ∧
    ∀ fuel : Nat, getPullRequestCommits gwC8 42 fuel = none :=
  ⟨fun _ => rfl,
   fun fuel =>
     getPullRequestCommitsLoop_none gwC8 42 [⟨some "a"⟩] ⟨2⟩ rfl (by decide)
       fuel ⟨0, perPage⟩ []⟩

/-- Claim C3 (refuted — supporting theorem for the code bug): on a pull
request whose commits span two pages, the host's first-page response
reports next page 2 and page 2 exists and is final, yet
`getPullRequestCommits` never returns (for any fuel): because every
request is sent with a fresh zero-valued `ListOptions{}`, the loop
re-reads the first page forever instead of concatenating the pages. -/
theorem getPullRequestCommits_multipage_bug :
    gwC3.listCommits 7 emptyListOptions = .ok ([⟨some "a"⟩, ⟨some "b"⟩], ⟨2⟩) ∧
    gwC3.listCommits 7 ⟨2, perPage⟩ = .ok ([⟨some "c"⟩], ⟨0⟩) ∧
    ∀ fuel : Nat, getPullRequestCommits gwC3 7 fuel = none :=
  ⟨rfl, rfl,
   fun fuel =>
     getPullRequestCommitsLoop_none gwC3 7 [⟨some "a"⟩, ⟨some "b"⟩] ⟨2⟩ rfl (by decide)
       fuel ⟨0, perPage⟩ []⟩

/-- When its two gateway calls succeed, `createSiblingCommit` creates
exactly one commit — the branch head's tree, sole parent the cherry
parent — and force-updates the branch ref to it, in that order. -/
theorem createSiblingCommit_ok (gw : Gateway) (bn : String)
    (tip p sib : Commit)
    (h1 : gw.createCommit (.mk none (some "field-not-required") tip.GetTree [p]) = .ok sib)
    (h2 : gw.updateRef ⟨branchRefPfx ++ bn, sib.GetSHA⟩ true = .ok ()) :
    createSiblingCommit gw bn tip p =
      (.ok (),
       [.createCommit (.mk none (some "field-not-required") tip.GetTree [p]),
        .updateRef ⟨branchRefPfx ++ bn, sib.GetSHA⟩ true]) := by
  simp [createSiblingCommit, h1, h2]

/-- When its two gateway calls succeed, `merge` issues the repository
merge and then fetches the merge commit object, which it returns. -/
theorem merge_ok (gw : Gateway) (base hsha : String) (m : RepoCommit) (mc : Commit)
    (h1 : gw.repoMerge base hsha = .ok m)
    (h2 : gw.getCommit m.GetSHA = .ok mc) :
    merge gw base hsha = (.ok mc, [.repoMerge base hsha, .getCommit m.GetSHA]) := by
  simp [merge, h1, h2]

/-- Claim C1: on a single-parent commit, when every gateway call
succeeds, the cherry-pick step executes the sibling-commit protocol in
order — create the sibling (current tip's tree, sole parent the
commit-to-apply's parent), force-update the branch to it, merge with
base the target branch and head the commit to apply, fetch the merge
commit (capturing only its tree), re-fetch the current tip, create the
final commit with the original message, the merge-derived tree and the
re-fetched tip as sole parent, force-update the branch to it — and
returns the merge-derived tree and the final commit's SHA.  The theorem
holds for every behaviour of `deleteRef`, and the trace shows no other
call is made. -/
theorem cherryPickCommit_protocol (gw : Gateway) (branchName : String)
    (cherry tip p sib : Commit) (m : RepoCommit) (mergeCommit updated final : Commit)
    (hp : cherry.parents = [p])
    (h1 : gw.createCommit (.mk none (some "field-not-required") tip.GetTree [p]) = .ok sib)
    (h2 : gw.updateRef ⟨branchRefPfx ++ branchName, sib.GetSHA⟩ true = .ok ())
    (h3 : gw.repoMerge branchName cherry.GetSHA = .ok m)
    (h4 : gw.getCommit m.GetSHA = .ok mergeCommit)
    (h5 : gw.getCommit tip.GetSHA = .ok updated)
    (h6 : gw.createCommit (.mk none cherry.message mergeCommit.GetTree [updated]) = .ok final)
    (h7 : gw.updateRef ⟨branchRefPfx ++ branchName, final.GetSHA⟩ true = .ok ()) :
    cherryPickCommit gw branchName cherry tip =
      (.ok (mergeCommit.GetTree, final.GetSHA),
       [.createCommit (.mk none (some "field-not-required") tip.GetTree [p]),
        .updateRef ⟨branchRefPfx ++ branchName, sib.GetSHA⟩ true,
        .repoMerge branchName cherry.GetSHA,
        .getCommit m.GetSHA,
        .getCommit tip.GetSHA,
        .createCommit (.mk none cherry.message mergeCommit.GetTree [updated]),
        .updateRef ⟨branchRefPfx ++ branchName, final.GetSHA⟩ true]) := by
  have hs := createSiblingCommit_ok gw branchName tip p sib h1 h2
  have hm := merge_ok gw branchName cherry.GetSHA m mergeCommit h3 h4
  unfold cherryPickCommit
  rw [hp]
  simp [hs, hm, h5, h6, h7]

/-- Witness for C1: the protocol theorem applied to the concrete C1
fixture. -/
theorem cherryPickCommit_protocol_witness :
    cherryPickCommit gwC1 "release" cherryC1 tipC1 =
      (.ok (some ⟨"mt"⟩, "fin"),
       [.createCommit (.mk none (some "field-not-required") (some ⟨"tt"⟩) [parC1]),
        .updateRef ⟨"refs/heads/release", "sib"⟩ true,
        .repoMerge "release" "ch",
        .getCommit "m",
        .getCommit "tip",
        .createCommit (.mk none (some "orig message") (some ⟨"mt"⟩) [tipReC1]),
        .updateRef ⟨"refs/heads/release", "fin"⟩ true]) := by
  have h := cherryPickCommit_protocol gwC1 "release" cherryC1 tipC1 parC1 sibC1
    ⟨some "m"⟩ mergeC1 tipReC1 finC1 rfl rfl rfl rfl rfl rfl rfl rfl
  simpa [cherryC1, tipC1, parC1, sibC1, mergeC1, tipReC1, finC1,
         Commit.GetTree, Commit.GetSHA, Commit.tree, Commit.sha, Commit.message,
         RepoCommit.GetSHA, branchRefPfx] using h

/-- The guard of `cherryPickCommit`: a commit without exactly one parent
is rejected before any gateway call is made. -/
theorem cherryPickCommit_guard (gw : Gateway) (bn : String) (cherry tip : Commit)
    (hguard : cherry.parents.length ≠ 1) :
    cherryPickCommit gw bn cherry tip =
      (.error (.badParameter "merge commits are not supported"), []) := by
  rcases hp : cherry.parents with _ | ⟨a, _ | ⟨b, l⟩⟩
  · simp [cherryPickCommit, hp]
  · exact absurd (by simp [hp]) hguard
  · simp [cherryPickCommit, hp]

/-- Claim C4: a commit without exactly one parent makes the cherry-pick
step fail immediately with the merge-commits-not-supported error and an
empty call trace (so no gateway write — no sibling commit, no merge, no
ref update — happens within the step); and a backport whose first commit
is such a commit fails as a whole with that error. -/
theorem cherryPick_rejects_merge_commits (gw : Gateway) (bn : String)
    (cherry tip : Commit) (hguard : cherry.parents.length ≠ 1) :
    cherryPickCommit gw bn cherry tip =
      (.error (.badParameter "merge commits are not supported"), []) ∧
    ∀ (base label sha0 : String) (rest : List String) (b nb : Branch) (hc : Commit),
      gw.getBranch base = .ok b →
      gw.createRef ⟨branchRefPfx ++ newBranchNameOf base label, getSHAOfOpt b.commit⟩ = .ok () →
      gw.getBranch (newBranchNameOf base label) = .ok nb →
      gw.getCommit (getSHAOfOpt nb.commit) = .ok hc →
      gw.getCommit sha0 = .ok cherry →
      (Backport gw base label (sha0 :: rest)).1 =
        .error (.badParameter "merge commits are not supported") := by
  refine ⟨cherryPickCommit_guard gw bn cherry tip hguard, ?_⟩
  intro base label sha0 rest b nb hc hb hcr hnb hhc hsha0
  have hg := cherryPickCommit_guard gw (newBranchNameOf base label) cherry hc hguard
  simp [Backport, createBranchFrom, cherryPickCommitsOnBranch, cherryPickLoop,
        hb, hcr, hnb, hhc, hsha0, hg, wrap]

/-- Witness for C4: the guard theorem applied to the two-parent commit of
the C4 fixture, at step 1 of a whole backport. -/
theorem cherryPick_rejects_merge_commits_witness :
    cherryPickCommit gwC4 "auto-backport/branch/v6/feat" mergeCommitC2 tipC2 =
      (.error (.badParameter "merge commits are not supported"), []) ∧
    (Backport gwC4 "branch/v6" "feat" ["c1"]).1 =
      .error (.badParameter "merge commits are not supported") := by
  have h := cherryPick_rejects_merge_commits gwC4 "auto-backport/branch/v6/feat"
    mergeCommitC2 tipC2 (by simp [mergeCommitC2, Commit.parents])
  exact ⟨h.1,
    h.2 "branch/v6" "feat" "c1" [] ⟨some ⟨some "base-sha"⟩⟩ ⟨some ⟨some "base-sha"⟩⟩
      tipC2 rfl rfl rfl rfl rfl⟩

/-- When every per-commit fetch succeeds, a failing cherry-pick loop
ends its call trace with the deferred deletion of the branch ref. -/
theorem cherryPickLoop_error_last_delete (gw : Gateway) (bn : String) :
    ∀ (commits : List String) (head : Commit) (e : Err) (tr : List GEffect),
      (∀ sha ∈ commits, ∃ c, gw.getCommit sha = .ok c) →
      cherryPickLoop gw bn commits head = (.error e, tr) →
      ∃ tr0, tr = tr0 ++ [.deleteRef (branchRefPfx ++ bn)] := by
  intro commits
  induction commits with
  | nil =>
    intro head e tr _ h
    simp [cherryPickLoop] at h
  | cons sha rest ih =>
    intro head e tr hfetch h
    obtain ⟨c, hc⟩ := hfetch sha (by simp)
    rcases hcp : cherryPickCommit gw bn c head with ⟨res, tr1⟩
    rcases res with e1 | v
    · simp only [cherryPickLoop, hc, hcp, wrap, Prod.mk.injEq, Except.error.injEq] at h
      obtain ⟨-, htr⟩ := h
      exact ⟨.getCommit sha :: tr1, by simp [← htr]⟩
    · rcases v with ⟨tree, newSHA⟩
      rcases hrec : cherryPickLoop gw bn rest
          (.mk (some newSHA) head.message tree head.parents) with ⟨res2, tr2⟩
      simp only [cherryPickLoop, hc, hcp, hrec, Prod.mk.injEq] at h
      obtain ⟨hres2, htr⟩ := h
      obtain ⟨tr0, htr0⟩ := ih (.mk (some newSHA) head.message tree head.parents) e tr2
        (fun s hs => hfetch s (by simp [hs])) (by rw [hrec, hres2])
      exact ⟨.getCommit sha :: (tr1 ++ tr0), by simp [← htr, htr0]⟩

/-- A trace ending with the deletion of reference `r` leaves `r`
non-existent, whatever came before and whatever the starting state. -/
theorem refExistsAfter_append_delete (l : List GEffect) (s : Bool) (r : String) :
    refExistsAfter s (l ++ [.deleteRef r]) r = false := by
  unfold refExistsAfter
  rw [List.foldl_append]
  simp [refStep]

/-- Claim C2: when branch creation succeeds and some later cherry-pick
step fails (each step's commit object itself having been fetched
successfully), `Backport` returns the failing step's error and the call
trace ends with the deletion of the new branch's ref, so that under the
gateway's reference semantics no branch with the computed name exists
afterwards, from any starting state.  `gw.deleteRef` is left completely
unconstrained — in particular it may fail — so a deletion failure is
never surfaced over the step's error. -/
theorem backport_rollback_on_step_failure (gw : Gateway) (base label : String)
    (commits : List String) (b nb : Branch) (hc : Commit) (e : Err)
    (tr0 : List GEffect)
    (hb : gw.getBranch base = .ok b)
    (hcr : gw.createRef ⟨branchRefPfx ++ newBranchNameOf base label,
             getSHAOfOpt b.commit⟩ = .ok ())
    (hnb : gw.getBranch (newBranchNameOf base label) = .ok nb)
    (hhc : gw.getCommit (getSHAOfOpt nb.commit) = .ok hc)
    (hfetch : ∀ sha ∈ commits, ∃ c, gw.getCommit sha = .ok c)
    (hloop : cherryPickLoop gw (newBranchNameOf base label) commits hc = (.error e, tr0)) :
    (Backport gw base label commits).1 = .error e ∧
    ∀ s : Bool,
      refExistsAfter s (Backport gw base label commits).2
        (branchRefPfx ++ newBranchNameOf base label) = false := by
  have hbp : Backport gw base label commits =
      (.error e,
       .getBranch base ::
         .createRef ⟨branchRefPfx ++ newBranchNameOf base label, getSHAOfOpt b.commit⟩ ::
         .getBranch (newBranchNameOf base label) ::
         .getCommit (getSHAOfOpt nb.commit) :: tr0) := by
    simp [Backport, createBranchFrom, cherryPickCommitsOnBranch,
          hb, hcr, hnb, hhc, hloop, wrap]
  obtain ⟨tr1, htr1⟩ := cherryPickLoop_error_last_delete gw (newBranchNameOf base label)
    commits hc e tr0 hfetch hloop
  rw [hbp]
  refine ⟨rfl, fun s => ?_⟩
  rw [htr1]
  have hlast := refExistsAfter_append_delete
    (.getBranch base ::
      .createRef ⟨branchRefPfx ++ newBranchNameOf base label, getSHAOfOpt b.commit⟩ ::
      .getBranch (newBranchNameOf base label) ::
      .getCommit (getSHAOfOpt nb.commit) :: tr1) s
    (branchRefPfx ++ newBranchNameOf base label)
  simpa using hlast

/-- Witness for C2: on the C2 fixture the first step fails on a
two-parent commit, the branch ref deletion itself fails and is
swallowed, `Backport` returns the step's error and the computed branch
does not exist afterwards. -/
theorem backport_rollback_on_step_failure_witness :
    (Backport gwC2 "branch/v6" "feat" ["c1"]).1 =
      .error (.badParameter "merge commits are not supported") ∧
    refExistsAfter true (Backport gwC2 "branch/v6" "feat" ["c1"]).2
      ("refs/heads/" ++ newBranchNameOf "branch/v6" "feat") = false := by
  have h := backport_rollback_on_step_failure gwC2 "branch/v6" "feat" ["c1"]
    ⟨some ⟨some "base-sha"⟩⟩ ⟨some ⟨some "base-sha"⟩⟩ tipC2
    (.badParameter "merge commits are not supported")
    [.getCommit "c1", .deleteRef ("refs/heads/" ++ newBranchNameOf "branch/v6" "feat")]
    rfl rfl rfl rfl
    (by intro sha hs; rw [List.mem_singleton] at hs; subst hs; exact ⟨mergeCommitC2, rfl⟩)
    rfl
  exact ⟨h.1, h.2 true⟩

/-- Claim C5: the new branch is named exactly
`auto-backport/<baseBranch>/<sourceBranchLabel>` — a pure function of
the pair, so two invocations with the same pair compute the same name —
and when the host refuses branch creation (e.g. with its
reference-already-exists error) `Backport` stops right there, surfaces
that error unchanged, and its trace shows no ref update or deletion, so
the existing branch is not overwritten. -/
theorem backport_branch_naming (gw : Gateway) (base label : String)
    (commits : List String) :
    newBranchNameOf base label = "auto-backport/" ++ base ++ "/" ++ label ∧
    (∀ n tr, Backport gw base label commits = (.ok n, tr) →
       n = "auto-backport/" ++ base ++ "/" ++ label) ∧
    (∀ (b : Branch) (e : Err), gw.getBranch base = .ok b →
       gw.createRef ⟨branchRefPfx ++ newBranchNameOf base label,
         getSHAOfOpt b.commit⟩ = .error e →
       Backport gw base label commits =
         (.error e,
          [.getBranch base,
           .createRef ⟨branchRefPfx ++ newBranchNameOf base label,
             getSHAOfOpt b.commit⟩])) := by
  refine ⟨rfl, ?_, ?_⟩
  · intro n tr h
    rcases hcb : createBranchFrom gw base (newBranchNameOf base label) with ⟨res1, tr1⟩
    rcases res1 with e1 | u
    · simp [Backport, hcb] at h
    · rcases hcc : cherryPickCommitsOnBranch gw (newBranchNameOf base label) commits
        with ⟨res2, tr2⟩
      rcases res2 with e2 | u2
      · simp [Backport, hcb, hcc] at h
      · simp only [Backport, hcb, hcc, Prod.mk.injEq, Except.ok.injEq] at h
        rw [← h.1]
        rfl
  · intro b e hb hcr
    simp [Backport, createBranchFrom, hb, hcr, wrap]

/-- Witness for C5: on the C5 fixture the host answers branch creation
with its already-exists error, and `Backport` surfaces it with only the
branch read and the failed creation in its trace. -/
theorem backport_branch_naming_witness :
    Backport gwC5 "branch/v9" "feat" ["c1"] =
      (.error (.external "Reference already exists"),
       [.getBranch "branch/v9",
        .createRef ⟨"refs/heads/auto-backport/branch/v9/feat", "sha0"⟩]) := by
  have h := (backport_branch_naming gwC5 "branch/v9" "feat" ["c1"]).2.2
    ⟨some ⟨some "sha0"⟩⟩ (.external "Reference already exists") rfl rfl
  simpa [newBranchNameOf, branchRefPfx, getSHAOfOpt, RepoCommit.GetSHA] using h

/-- Claim C9: `Backport` on an empty commits list, when branch creation
and the two reads that follow succeed, returns the computed branch name
with no error; its trace is exactly the base-branch read, the creation
of the new branch ref at the base branch's tip SHA, and two reads — so
the only mutation of the host is that single branch creation and no
cherry-pick step runs. -/
theorem backport_empty_commits (gw : Gateway) (base label : String)
    (b nb : Branch) (hc : Commit)
    (hb : gw.getBranch base = .ok b)
    (hcr : gw.createRef ⟨branchRefPfx ++ newBranchNameOf base label,
             getSHAOfOpt b.commit⟩ = .ok ())
    (hnb : gw.getBranch (newBranchNameOf base label) = .ok nb)
    (hhc : gw.getCommit (getSHAOfOpt nb.commit) = .ok hc) :
    Backport gw base label [] =
      (.ok (newBranchNameOf base label),
       [.getBranch base,
        .createRef ⟨branchRefPfx ++ newBranchNameOf base label, getSHAOfOpt b.commit⟩,
        .getBranch (newBranchNameOf base label),
        .getCommit (getSHAOfOpt nb.commit)]) ∧
    (Backport gw base label []).2.filter isWriteEffect =
      [.createRef ⟨branchRefPfx ++ newBranchNameOf base label,
         getSHAOfOpt b.commit⟩] := by
  have hbp : Backport gw base label [] =
      (.ok (newBranchNameOf base label),
       [.getBranch base,
        .createRef ⟨branchRefPfx ++ newBranchNameOf base label, getSHAOfOpt b.commit⟩,
        .getBranch (newBranchNameOf base label),
        .getCommit (getSHAOfOpt nb.commit)]) := by
    simp [Backport, createBranchFrom, cherryPickCommitsOnBranch, cherryPickLoop,
          hb, hcr, hnb, hhc]
  refine ⟨hbp, ?_⟩
  rw [hbp]
  simp [isWriteEffect]

/-- Witness for C9: the empty-commits theorem applied to the C9 fixture. -/
theorem backport_empty_commits_witness :
    Backport gwC9 "branch/v7" "feat" [] =
      (.ok (newBranchNameOf "branch/v7" "feat"),
       [.getBranch "branch/v7",
        .createRef ⟨"refs/heads/auto-backport/branch/v7/feat", "base-sha"⟩,
        .getBranch (newBranchNameOf "branch/v7" "feat"),
        .getCommit "base-sha"]) ∧
    (Backport gwC9 "branch/v7" "feat" []).2.filter isWriteEffect =
      [.createRef ⟨"refs/heads/auto-backport/branch/v7/feat", "base-sha"⟩] := by
  have h := backport_empty_commits gwC9 "branch/v7" "feat"
    ⟨some ⟨some "base-sha"⟩⟩ ⟨some ⟨some "base-sha"⟩⟩ tipC2 rfl rfl rfl rfl
  constructor
  · have h1 := h.1
    simpa [newBranchNameOf, branchRefPfx, getSHAOfOpt, RepoCommit.GetSHA] using h1
  · have h2 := h.2
    simpa [newBranchNameOf, branchRefPfx, getSHAOfOpt, RepoCommit.GetSHA] using h2

/-- Claim C6: `GetPullRequestMetadata` fails exactly when one of the
four conditions holds — fetching the pull request fails (that error is
returned), its state is not `closed`, its base ref stripped of
`refs/heads/` is not `master`, or listing its commits fails (that error
is returned) — and in the remaining case it succeeds, returning the
commit SHAs together with the head ref stripped of `refs/heads/`.  The
four cases are exhaustive, so together they give the "if and only if". -/
theorem getPullRequestMetadata_failure_iff (gw : Gateway) (number : Int) (fuel : Nat) :
    (∀ e, gw.getPull number = .error e →
       GetPullRequestMetadata gw number fuel = some (.error e, [.getPull number])) ∧
    (∀ pull, gw.getPull number = .ok pull →
      (pull.GetState ≠ backportPRState →
         GetPullRequestMetadata gw number fuel =
           some (.error (.errorf ("pull request " ++ toString number ++ " is not closed")),
                 [.getPull number])) ∧
      (pull.GetState = backportPRState →
       trimPfx pull.baseRef branchRefPfx ≠ masterBranchName →
         GetPullRequestMetadata gw number fuel =
           some (.error (.errorf ("pull request " ++ toString number ++
                   "\x27s base is not master")),
                 [.getPull number])) ∧
      (pull.GetState = backportPRState →
       trimPfx pull.baseRef branchRefPfx = masterBranchName →
        (∀ e tr, getPullRequestCommits gw pull.GetNumber fuel = some (.error e, tr) →
           GetPullRequestMetadata gw number fuel = some (.error e, .getPull number :: tr)) ∧
        (∀ cs tr, getPullRequestCommits gw pull.GetNumber fuel = some (.ok cs, tr) →
           GetPullRequestMetadata gw number fuel =
             some (.ok (cs, trimPfx pull.headRef branchRefPfx),
                   .getPull number :: tr)))) := by
  refine ⟨?_, ?_⟩
  · intro e he
    simp [GetPullRequestMetadata, he, wrap]
  · intro pull hpull
    refine ⟨?_, ?_, ?_⟩
    · intro hstate
      simp [GetPullRequestMetadata, hpull, hstate]
    · intro hstate hbase
      simp [GetPullRequestMetadata, hpull, hstate, hbase]
    · intro hstate hbase
      refine ⟨?_, ?_⟩
      · intro e tr hlist
        simp [GetPullRequestMetadata, hpull, hstate, hbase, hlist, wrap]
      · intro cs tr hlist
        simp [GetPullRequestMetadata, hpull, hstate, hbase, hlist]

/-- Witness for C6: on the C6 fixture (pull request 5, closed, base
`refs/heads/master`, head `refs/heads/feature-x`, one page of two
commits) the metadata fetch succeeds with the commit SHAs and the
stripped head ref. -/
theorem getPullRequestMetadata_failure_iff_witness :
    GetPullRequestMetadata gwC6 5 1 =
      some (.ok (["s1", "s2"], "feature-x"),
            [.getPull 5, .listCommits 5 emptyListOptions]) := by
  have h := (((getPullRequestMetadata_failure_iff gwC6 5 1).2 pullC6 rfl).2.2
      rfl (by decide)).2 ["s1", "s2"] [.listCommits 5 emptyListOptions] rfl
  have hhead : trimPfx pullC6.headRef branchRefPfx = "feature-x" := by decide
  rw [hhead] at h
  exact h

end BackportTool
